import Mathlib

/-!
Verification of the `do-prototype` ("Do"/"Flowstate") agent runtime against its
natural-language specification.

The development shallowly embeds the relevant parts of the Python source:

* `src/flowstate/agents/base_agent.py` — the `Agent` base class: subclass
  registration (`__init_subclass__`), construction (`__init__`), prompt
  submission (`send_prompt`), and the tool-dispatch wrapper
  (`__create_tool` / `run_tool`).
* `src/flowstate/chats/flowstate_chat.py` — the `FlowstateChat` WebSocket
  actor: the `listen` dispatch loop, the nudge scheduler, and its handlers.
* `src/flowstate/websocket_handlers.py` — the legacy `chat_websocket` nudge
  scheduling (fixed five-minute first delay).
* `src/flowstate/auth.py` — the HMAC access-token codec
  (`generate_access_token` / `verify_access_token`), including a faithful
  executable model of URL-safe base64 and big-endian byte serialization.

Python values, exceptions and dictionaries are modelled by small inductive
types; machine-level concerns (actual HMAC-SHA256 digests, the event loop's
scheduler) are abstracted as parameters or as an explicit step relation, each
justified next to its definition.
-/

/-- A Python runtime value, restricted to the shapes that flow through the
tool dispatcher in this codebase: strings, integers, and lists of strings. -/
inductive PyValue where
  | str (s : String)
  | int (n : Int)
  | listStr (xs : List String)
deriving DecidableEq

/-- A Python exception as observed by the dispatcher: `TypeError` (raised by
`inspect.Signature.bind` on bad arguments), `KeyError` (raised by
`str.format` on a missing named placeholder), or any other exception
carrying a message. -/
inductive PyExc where
  | typeError (msg : String)
  | keyError (key : String)
  | exc (msg : String)
deriving DecidableEq

/-- Python `str(e)` for an exception `e`: `KeyError` renders as the repr of
the missing key (quoted), the others render their message. -/
def pyExcMsg : PyExc → String
  | .typeError m => m
  | .keyError k => "'" ++ k ++ "'"
  | .exc m => m

/-- Python `str(v)` for the values we model (used by `str.format`
substitution). Lists are not substituted into labels in this codebase, so a
plain bracketed rendering suffices. -/
def pyStr : PyValue → String
  | .str s => s
  | .int n => toString n
  | .listStr xs => toString xs

/-- One parameter of a tool's declared signature (the bound method's
signature, `self` excluded): its name and whether it has a default value. -/
structure PyParam where
  name : String
  hasDefault : Bool
deriving DecidableEq

/-- Keyword arguments of a call, as passed by the model-calling framework
(which invokes tools with keyword arguments). -/
abbrev PyKwargs := List (String × PyValue)

/-- `inspect.Signature.bind(**kwargs)` from `run_tool`
(src/flowstate/agents/base_agent.py line 130): fails with `TypeError` when a
required parameter is missing or an unknown keyword is passed; on success the
`BoundArguments.arguments` mapping contains exactly the supplied arguments in
parameter order (defaults are not applied by `bind`). -/
def pyBind (params : List PyParam) (kwargs : PyKwargs) : Except PyExc PyKwargs :=
  match params.find? (fun p => !p.hasDefault && (kwargs.lookup p.name).isNone) with
  | some p => .error (.typeError ("missing a required argument: '" ++ p.name ++ "'"))
  | none =>
    match kwargs.find? (fun kv => !(params.map PyParam.name).contains kv.fst) with
    | some kv => .error (.typeError ("got an unexpected keyword argument '" ++ kv.fst ++ "'"))
    | none => .ok (params.filterMap (fun p => (kwargs.lookup p.name).map (fun v => (p.name, v))))

/-- One chunk of a `str.format` template: literal text or a named
placeholder (`"Creating task {title} in {project_name}"` becomes
`[lit "Creating task ", ph "title", lit " in ", ph "project_name"]`).
A Python identifier contains no braces, so a bare attribute name used as a
template is a single literal chunk. -/
inductive TChunk where
  | lit (s : String)
  | ph (name : String)
deriving DecidableEq

/-- `template.format(**bound)` from `run_tool` (base_agent.py lines 126-131):
substitutes each named placeholder from the bound arguments, ignoring extra
bound arguments, and raises `KeyError` on a placeholder that is not among
them. -/
def resolveLabel (template : List TChunk) (bound : PyKwargs) : Except PyExc String :=
  match template with
  | [] => .ok ""
  | .lit s :: rest => (resolveLabel rest bound).map (fun t => s ++ t)
  | .ph n :: rest =>
    match bound.lookup n with
    | none => .error (.keyError n)
    | some v => (resolveLabel rest bound).map (fun t => pyStr v ++ t)

/-- A registered tool as seen by `Agent.__create_tool`
(base_agent.py lines 119-140): the attribute name, the declared signature,
the optional `nice_name` template attached by the `tool` decorator, and the
underlying body. The body is modelled as a function from the bound arguments
to either a value or a raised exception. -/
structure ToolDescr where
  attrName : String
  params : List PyParam
  niceName : Option (List TChunk)
  body : PyKwargs → Except PyExc PyValue

/-- `name_callable` in `run_tool` (base_agent.py lines 125-127): the
`nice_name` template when present, otherwise the attribute name used as a
format template (an identifier has no placeholders, so it formats to
itself). -/
def toolTemplate (t : ToolDescr) : List TChunk :=
  t.niceName.getD [TChunk.lit t.attrName]

/-- Result of one invocation of the dispatcher-wrapped tool, instrumented
with the number of times the underlying body was invoked. `result` is
`Except.error` when an exception escapes the wrapper to its caller. -/
structure ToolCallResult where
  result : Except PyExc PyValue
  bodyInvocations : Nat

/-- `run_tool` from `Agent.__create_tool` (base_agent.py lines 123-137),
line by line: bind the arguments against the signature (line 130, outside
the `try`), resolve the progress label by formatting the template with the
bound arguments (line 131, outside the `try`), report the label (line 132,
a no-op without a reporting channel; console printing is a side effect not
modelled), then invoke the body inside `try`; any exception the body raises
is converted to the string result `"Error in tool <attr>: <message>"`
(lines 133-137). -/
def run_tool (t : ToolDescr) (kwargs : PyKwargs) : ToolCallResult :=
  match pyBind t.params kwargs with
  | .error e => ⟨.error e, 0⟩
  | .ok bound =>
    match resolveLabel (toolTemplate t) bound with
    | .error e => ⟨.error e, 0⟩
    | .ok _label =>
      match t.body bound with
      | .ok v => ⟨.ok v, 1⟩
      | .error e => ⟨.ok (.str ("Error in tool " ++ t.attrName ++ ": " ++ pyExcMsg e)), 1⟩

/-- `DoAgent.create_task` as registered through the dispatcher
(src/do/agents/do_agent.py lines 187-196): every parameter has a default,
and the decorator label is `"Creating task {title} in {project_name}"`.
The body is irrelevant to the dispatch behaviour under test. -/
def createTaskDescr : ToolDescr where
  attrName := "create_task"
  params := [⟨"project_name", true⟩, ⟨"title", true⟩, ⟨"description", true⟩,
             ⟨"due_date", true⟩, ⟨"priority", true⟩, ⟨"task_type", true⟩]
  niceName := some [.lit "Creating task ", .ph "title", .lit " in ", .ph "project_name"]
  body := fun _ => .ok (.str "Created task.")

/-- `LearnMoreAgent.create_github_link` as registered through the dispatcher
(src/flowstate/agents/learn_more_agent.py lines 74-76): one required
parameter `file_path`, no `nice_name` decorator. -/
def createGithubLinkDescr : ToolDescr where
  attrName := "create_github_link"
  params := [⟨"file_path", false⟩]
  niceName := none
  body := fun bound =>
    match bound.lookup "file_path" with
    | some (.str p) =>
      .ok (.str ("https://github.com/8ly-dev/flowstate-prototype/blob/main/" ++ p))
    | _ => .error (.exc "unreachable for bound calls")

/-- The value of `response.new_messages()` and `response.output` returned by
one `self.agent.run(...)` round-trip (the model collaborator is external; a
run either raises or yields this record). -/
structure RunResp (Msg Out : Type) where
  newMessages : List Msg
  output : Out

/-- Outcome of `Agent.send_prompt`, instrumented with the number of calls
made to the model collaborator (`self.agent.run`). -/
structure SendOutcome (Msg Out Err : Type) where
  history : List Msg
  result : Except Err Out
  modelCalls : Nat

/-- `Agent.send_prompt` (src/flowstate/agents/base_agent.py lines 93-117).
The model collaborator is a parameter `run`, indexed by the attempt number
so that the absence of a retry loop is observable: the code performs exactly
one `await self.agent.run(prompt, message_history=self.history, ...)`
(line 115); if it raises, the exception propagates before line 116 executes,
leaving `self.history` untouched; on success `self.history.extend(
response.new_messages())` runs (line 116) and `response.output` is returned
(line 117). -/
def send_prompt {Msg Out Err : Type} (history : List Msg) (prompt : String)
    (run : Nat → String → List Msg → Except Err (RunResp Msg Out)) :
    SendOutcome Msg Out Err :=
  match run 0 prompt history with
  | .error e => ⟨history, .error e, 1⟩
  | .ok resp => ⟨history ++ resp.newMessages, .ok resp.output, 1⟩

/-- A class body as seen by `Agent.__init_subclass__`: the docstring
(`cls.__doc__`, `none` when absent) and the attributes introduced by the
subclass in declaration order, each with Python's `callable` flag. -/
structure ClsDecl where
  doc : Option String
  declared : List (String × Bool)

/-- Python's `<` on strings, on the underlying character lists: strict
lexicographic comparison by code point (`CPython` compares strings code
point by code point). -/
def strLexLt : List Char → List Char → Bool
  | [], [] => false
  | [], _ :: _ => true
  | _ :: _, [] => false
  | c :: cs, d :: ds =>
    if c.toNat < d.toNat then true
    else if d.toNat < c.toNat then false
    else strLexLt cs ds

/-- Python's `<=` on strings: the negation of the reversed strict
comparison. -/
def pyStrLe (a b : String) : Bool :=
  !(strLexLt b.data a.data)

/-- The ordering relation used by Python's `sorted` (and hence `dir`). -/
def pyStrLeRel (a b : String) : Prop :=
  pyStrLe a b = true

instance pyStrLeRelDec : DecidableRel pyStrLeRel :=
  fun a b => inferInstanceAs (Decidable (pyStrLe a b = true))

/-- `name.startswith("_")` from `__init_subclass__`
(base_agent.py line 84). -/
def startsWithUnderscore (s : String) : Bool :=
  match s.data with
  | [] => false
  | c :: _ => c == '_'

/-- The public attributes of the base `Agent` class
(src/flowstate/agents/base_agent.py lines 41-45 and 93): `dir(Agent)` also
lists dunder and name-mangled attributes, but those all start with an
underscore and are discarded by the `name.startswith("_")` filter before
membership in `super_attrs` is ever consulted, so only the public names
matter for the computation. -/
def agentBaseAttrs : List String :=
  ["agent_factory", "deps_type", "output_type", "send_prompt", "system_prompt", "tools"]

/-- `dir(cls)` for a direct subclass of `Agent`: the union of the base
attributes and the subclass's declared attributes, without duplicates and
sorted alphabetically (CPython's `dir` sorts the result). -/
def dirOf (cls : ClsDecl) : List String :=
  List.insertionSort pyStrLeRel ((agentBaseAttrs ++ cls.declared.map Prod.fst).dedup)

/-- Python `callable(getattr(cls, name))` for a declared attribute. -/
def callableOf (cls : ClsDecl) (n : String) : Bool :=
  (cls.declared.lookup n).getD false

/-- The tool-name list computed by `Agent.__init_subclass__`
(base_agent.py lines 79-85) for a direct subclass (for which `cls.tools is
Agent.tools` holds, so the list starts fresh): every name in `dir(cls)` that
does not start with an underscore, is not an attribute of the base `Agent`
type, and is callable, appended in `dir` order. -/
def initSubclassTools (cls : ClsDecl) : List String :=
  (dirOf cls).filter
    (fun n => !startsWithUnderscore n && !agentBaseAttrs.contains n && callableOf cls n)

/-- `cls.system_prompt = cls.__doc__` (base_agent.py line 87): the system
prompt is the docstring, verbatim, with no validation. -/
def initSubclassPrompt (cls : ClsDecl) : Option String :=
  cls.doc

/-- Modelled from the spec: the tool list the specification describes —
"the set of public callables defined in `T` beyond the base type, in
declaration order". Used only to compare the specified ordering against the
one the code computes. -/
def specDeclarationOrderTools (cls : ClsDecl) : List String :=
  (cls.declared.filter
    (fun d => !startsWithUnderscore d.fst && !agentBaseAttrs.contains d.fst && d.snd)).map Prod.fst

/-- The system-prompt concatenation performed by `Agent.__init__`
(base_agent.py lines 62-64): Python evaluates
`"Always format dates in a nice human format.\n" + self.system_prompt`,
which raises `TypeError` when the docstring was absent (`None`) and
otherwise yields the composed prompt handed to the underlying
`PydanticAgent`. No `ConfigurationError` (or any other validation) exists
anywhere in the code. -/
def agentInit (systemPrompt : Option String) : Except PyExc String :=
  match systemPrompt with
  | none => .error (.typeError "can only concatenate str (not \"NoneType\") to str")
  | some s => .ok ("Always format dates in a nice human format.\n" ++ s)

/-- A two-method subclass with `DoAgent`'s declaration order
(src/do/agents/do_agent.py lines 124 and 146: `format_date` is declared
before `create_project`). -/
def demoCls : ClsDecl where
  doc := some "You are the invisible coordinator for the app Do."
  declared := [("format_date", true), ("create_project", true)]

/-- A JSON object received on the WebSocket, as a key/value list
(`websocket.receive_json()` yields a Python dict; keys are unique). -/
abbrev PyDict := List (String × PyValue)

/-- `d.get(k)` / `d[k]` on a Python dict. -/
def pyDictGet (d : PyDict) (k : String) : Option PyValue :=
  d.lookup k

/-- Python truthiness for the values we model (used by `if task_id:`). -/
def pyTruthy : PyValue → Bool
  | .str s => !(s == "")
  | .int n => !(n == 0)
  | .listStr xs => !xs.isEmpty

/-- An outbound structured event, as serialized by `send_json`
(src/flowstate/chats/flowstate_chat.py dataclasses and dict literals):
`command` carries `{kind:"command", command:...}`, `reply` carries
`{kind:"reply", reply:...}`, `using` carries `{kind:"using",
tool_message:...}`, and `errorEv s` carries the dict literal
`{"type": "error", "error": s}` sent by `listen`. -/
inductive OutEvent where
  | command (c : String)
  | reply (r : String)
  | usingTool (m : String)
  | errorEv (e : String)
deriving DecidableEq

/-- The `*_handler` attributes present on `FlowstateChat` — the names
`hasattr(self, f"{kind}_handler")` can find
(src/flowstate/chats/flowstate_chat.py lines 161 and 181). -/
def flowstateHandlerNames : List String :=
  ["prompt_handler", "complete_task_handler"]

/-- Observable effect of processing one inbound JSON message in
`FlowstateChat.listen`: the events sent, the handler method invoked (if
any), the `task_id` passed to `db.delete_task` (if any), whether the pending
nudge task was cancelled and whether a fresh one was scheduled, and whether
the receive loop continues (the connection stays open). -/
structure ListenEffect where
  events : List OutEvent
  invoked : Option String
  deletedTask : Option PyValue
  nudgeCancelled : Bool
  nudgeScheduled : Bool
  connOpen : Bool
deriving DecidableEq

/-- `FlowstateChat.complete_task_handler` (flowstate_chat.py lines 181-191):
when `data.get('task_id')` is truthy it deletes the task, cancels any
pending nudge and schedules a fresh one; otherwise it does nothing. -/
def complete_task_handler (d : PyDict) : ListenEffect :=
  match pyDictGet d "task_id" with
  | some v =>
    if pyTruthy v then
      ⟨[], some "complete_task_handler", some v, true, true, true⟩
    else
      ⟨[], some "complete_task_handler", none, false, false, true⟩
  | none => ⟨[], some "complete_task_handler", none, false, false, true⟩

/-- `FlowstateChat.prompt_handler` (flowstate_chat.py lines 161-179): cancel
any pending nudge, emit `command: typing`, forward the prompt to the agent
(its reply is the parameter `agentReply`), emit the reply, and schedule the
next nudge. -/
def prompt_handler (agentReply : String) : ListenEffect :=
  ⟨[.command "typing", .reply agentReply], some "prompt_handler", none, true, true, true⟩

/-- Python `' ,'.join(data.keys())` from flowstate_chat.py line 210 (note
the space-comma separator as written in the source). -/
def joinKeys (d : PyDict) : String :=
  String.intercalate " ," (d.map Prod.fst)

/-- One iteration of `FlowstateChat.listen` on a successfully received JSON
message (flowstate_chat.py lines 199-219): messages with
`type == "complete_task"` are routed to `complete_task_handler` first;
otherwise a message without a `"kind"` key gets a format error event; a
`"kind"` whose `<kind>_handler` attribute exists is dispatched to it
(the only such kinds are `prompt` and `complete_task`); any other kind gets
the event `{"type": "error", "error": "Invalid message type: <kind>"}` and
no handler runs. In every case the loop continues, so the connection stays
open for further messages. -/
def listenStepJson (agentReply : String) (d : PyDict) : ListenEffect :=
  if pyDictGet d "type" = some (.str "complete_task") then
    complete_task_handler d
  else if (pyDictGet d "kind").isNone then
    ⟨[.errorEv ("Invalid message format, got keys: " ++ joinKeys d)],
     none, none, false, false, true⟩
  else
    let kind := pyStr ((pyDictGet d "kind").getD (.str ""))
    if flowstateHandlerNames.contains (kind ++ "_handler") then
      if kind = "prompt" then prompt_handler agentReply
      else complete_task_handler d
    else
      ⟨[.errorEv ("Invalid message type: " ++ kind)], none, none, false, false, true⟩

/-- `random.randint(lo, hi)` draws an integer in the inclusive range
`[lo, hi]`; the draw is modelled by reducing an arbitrary random source
value into that range. -/
def randint (lo hi draw : Nat) : Nat :=
  lo + draw % (hi - lo + 1)

/-- The idle delay before the `n`-th nudge fires in
`FlowstateChat.nudge_user` (flowstate_chat.py line 139): every invocation —
including the first one scheduled by `on_connect` (line 91) — sleeps
`random.randint(60, 300)` seconds. -/
def flowstateNudgeDelay (draws : Nat → Nat) (n : Nat) : Nat :=
  randint 60 300 (draws n)

/-- The idle delay before the `n`-th nudge fires in the legacy
`chat_websocket` handler (src/flowstate/websocket_handlers.py lines 87, 76
and 83): the first delay is the fixed `5 * 60` seconds, and every
rescheduled delay is `random.randint(60, 300)`. -/
def legacyNudgeDelay (draws : Nat → Nat) : Nat → Nat
  | 0 => 5 * 60
  | n + 1 => randint 60 300 (draws n)

/-- Status of the single task slot `self.nudge_task`: no live task
(`dead` — `None`, cancelled, or finished), a created task still inside
`await asyncio.sleep(...)` (flowstate_chat.py line 139, "scheduled, not yet
fired"), or a task past the sleep and still running (lines 141-151). -/
inductive PtrState where
  | dead
  | pending
  | firing
deriving DecidableEq

/-- Abstract state of one connection's nudge machinery under asyncio's
single-threaded, run-to-suspension semantics. `BaseChat.create_chat`
(src/do/chats/base_chat.py lines 80-84, the twin of the absent flowstate
`base_chat.py`) launches `on_connect` as a background task and enters
`listen` immediately, so `on_connect`'s nudge creation
(flowstate_chat.py line 91) runs concurrently with message handling and
overwrites `self.nudge_task` without cancelling what it held. A live task
no longer referenced by `self.nudge_task` is an orphan: no cancel can ever
reach it, but it still fires and self-reschedules.

* `ptr` — status of the task currently referenced by `self.nudge_task`;
* `orphanPending` / `orphanFiring` — uncancelled live tasks that
  `self.nudge_task` no longer references, sleeping resp. running;
* `onConnectPending` — `on_connect` has been launched but has not yet
  executed its line-91 nudge creation;
* `handlerActive` — the serialized `listen` task is between the
  cancel-pending-nudge step of an inbound-message path and that path's
  `self.nudge_task = self.loop.create_task(self.nudge_user())` step.

Cancelled tasks take no further scheduling action (they die in the
`except asyncio.CancelledError: pass` arm, lines 152-154) and are not
tracked. -/
structure NudgeState where
  ptr : PtrState
  orphanPending : Nat
  orphanFiring : Nat
  onConnectPending : Bool
  handlerActive : Bool
deriving DecidableEq

/-- 1 when the referenced task is live. -/
def ptrLiveCount : PtrState → Nat
  | .dead => 0
  | .pending => 1
  | .firing => 1

/-- 1 when the referenced task is scheduled-not-yet-fired. -/
def ptrPendingCount : PtrState → Nat
  | .pending => 1
  | _ => 0

/-- 1 when the referenced task has fired and is still running. -/
def ptrFiringCount : PtrState → Nat
  | .firing => 1
  | _ => 0

/-- 1 when `on_connect` still owes its nudge creation. -/
def connectCount : Bool → Nat
  | true => 1
  | false => 0

/-- Number of nudge tasks in the "scheduled, not yet fired" state. -/
def pendingCount (s : NudgeState) : Nat :=
  ptrPendingCount s.ptr + s.orphanPending

/-- Number of live (uncancelled, unfinished) nudge tasks. -/
def liveCount (s : NudgeState) : Nat :=
  ptrLiveCount s.ptr + s.orphanPending + s.orphanFiring

/-- Number of live orphaned nudge tasks. -/
def orphanCount (s : NudgeState) : Nat :=
  s.orphanPending + s.orphanFiring

/-- The connection's state when `create_chat` has launched `on_connect` and
entered `listen`: no nudge task exists yet (`self.nudge_task` is `None`,
flowstate_chat.py line 69) and the line-91 creation is still to come. -/
def nudgeInit : NudgeState :=
  ⟨.dead, 0, 0, true, false⟩

/-- Event-level transitions of the nudge machinery, each mapped to its
source lines:

* `onConnectSchedule` — `on_connect` reaches line 91 and assigns a freshly
  created nudge task to `self.nudge_task` without cancelling the previous
  one: a live referenced task becomes an orphan. Runs once per connection.
* `inboundCancel` — the cancel-if-not-done step of `prompt_handler`
  (lines 163-165), `complete_task_handler` (lines 188-190), the legacy-text
  path (lines 225-227) or the `finally` teardown (lines 243-245): only the
  task in `self.nudge_task` is cancelled; orphans are untouched.
* `inboundSchedule` — the matching `self.nudge_task = create_task(...)`
  (lines 179, 191, 239); if some other task was assigned to the slot in
  between (by `on_connect` or by an orphan's self-reschedule), that task is
  orphaned, not cancelled.
* `firePtr` / `fireOrphan` — `await asyncio.sleep(...)` returns
  (line 139).
* `reschedulePtr` / `rescheduleOrphan` — the self-reschedule
  `self.nudge_task = self.loop.create_task(self.nudge_user())` (line 151)
  at the end of a fired, uncancelled task; it likewise overwrites the slot
  without cancelling, orphaning any other live referenced task.

The relation over-approximates the real interleavings, so an invariant of
all its reachable states holds of every real execution. -/
inductive NudgeStep : NudgeState → NudgeState → Prop
  | onConnectSchedule (s : NudgeState) (h : s.onConnectPending = true) :
      NudgeStep s ⟨.pending, s.orphanPending + ptrPendingCount s.ptr,
        s.orphanFiring + ptrFiringCount s.ptr, false, s.handlerActive⟩
  | inboundCancel (s : NudgeState) :
      NudgeStep s ⟨.dead, s.orphanPending, s.orphanFiring, s.onConnectPending, true⟩
  | inboundSchedule (s : NudgeState) (h : s.handlerActive = true) :
      NudgeStep s ⟨.pending, s.orphanPending + ptrPendingCount s.ptr,
        s.orphanFiring + ptrFiringCount s.ptr, s.onConnectPending, false⟩
  | firePtr (s : NudgeState) (h : s.ptr = .pending) :
      NudgeStep s ⟨.firing, s.orphanPending, s.orphanFiring, s.onConnectPending,
        s.handlerActive⟩
  | fireOrphan (s : NudgeState) (h : 1 ≤ s.orphanPending) :
      NudgeStep s ⟨s.ptr, s.orphanPending - 1, s.orphanFiring + 1, s.onConnectPending,
        s.handlerActive⟩
  | reschedulePtr (s : NudgeState) (h : s.ptr = .firing) :
      NudgeStep s ⟨.pending, s.orphanPending, s.orphanFiring, s.onConnectPending,
        s.handlerActive⟩
  | rescheduleOrphan (s : NudgeState) (h : 1 ≤ s.orphanFiring) :
      NudgeStep s ⟨.pending, s.orphanPending + ptrPendingCount s.ptr,
        s.orphanFiring - 1 + ptrFiringCount s.ptr, s.onConnectPending, s.handlerActive⟩

/-- A connection state is reachable when a finite sequence of events leads
to it from `nudgeInit`. -/
def NudgeReachable (s : NudgeState) : Prop :=
  Relation.ReflTransGen NudgeStep nudgeInit s

/-- The start state of the race-free executions: `on_connect` performed its
line-91 creation before any inbound message was processed (the common case:
the first message arrives only after the welcome or briefing reply). -/
def postOnConnect : NudgeState :=
  ⟨.pending, 0, 0, false, false⟩

/-- The inductive invariant of all executions: at most two live tasks
counting the still-owed `on_connect` creation as one; no orphan before that
creation has run; at most one live-or-owed task while a handler is between
its cancel and its reschedule; and at most one orphan. -/
def NudgeInv (s : NudgeState) : Prop :=
  liveCount s + connectCount s.onConnectPending ≤ 2 ∧
  (s.onConnectPending = true → orphanCount s = 0) ∧
  (s.handlerActive = true → liveCount s + connectCount s.onConnectPending ≤ 1) ∧
  orphanCount s ≤ 1

theorem nudgeInv_init : NudgeInv nudgeInit := by
  refine ⟨?_, ?_, ?_, ?_⟩ <;>
    simp [nudgeInit, NudgeInv, liveCount, orphanCount, connectCount, ptrLiveCount]

theorem nudgeInv_step {s t : NudgeState} (hs : NudgeInv s) (hstep : NudgeStep s t) :
    NudgeInv t := by
  obtain ⟨i1, i2, i3, i4⟩ := hs
  cases hstep <;>
    rcases s with ⟨p, op, of, c, ha⟩ <;>
    cases p <;> cases c <;> cases ha <;>
    simp_all [NudgeInv, liveCount, orphanCount, connectCount, ptrLiveCount,
      ptrPendingCount, ptrFiringCount] <;>
    omega

theorem nudgeInv_reachable {s : NudgeState} (h : NudgeReachable s) : NudgeInv s := by
  induction h with
  | refl => exact nudgeInv_init
  | tail _ hstep ih => exact nudgeInv_step ih hstep

/-- The inductive invariant of the race-free executions (from
`postOnConnect`, where the line-91 creation already happened): no orphan
ever arises, at most one live task, and none while a handler is between its
cancel and its reschedule. -/
def NudgeInvSettled (s : NudgeState) : Prop :=
  s.onConnectPending = false ∧ orphanCount s = 0 ∧ liveCount s ≤ 1 ∧
  (s.handlerActive = true → liveCount s = 0)

theorem nudgeInvSettled_init : NudgeInvSettled postOnConnect := by
  refine ⟨rfl, rfl, ?_, ?_⟩ <;>
    simp [postOnConnect, liveCount, orphanCount, ptrLiveCount]

theorem nudgeInvSettled_step {s t : NudgeState} (hs : NudgeInvSettled s)
    (hstep : NudgeStep s t) : NudgeInvSettled t := by
  obtain ⟨i1, i2, i3, i4⟩ := hs
  cases hstep <;>
    rcases s with ⟨p, op, of, c, ha⟩ <;>
    cases p <;> cases c <;> cases ha <;>
    simp_all [NudgeInvSettled, liveCount, orphanCount, connectCount, ptrLiveCount,
      ptrPendingCount, ptrFiringCount]

theorem nudgeInvSettled_reachable {s : NudgeState}
    (h : Relation.ReflTransGen NudgeStep postOnConnect s) : NudgeInvSettled s := by
  induction h with
  | refl => exact nudgeInvSettled_init
  | tail _ hstep ih => exact nudgeInvSettled_step ih hstep

theorem pendingCount_le_liveCount (s : NudgeState) : pendingCount s ≤ liveCount s := by
  rcases s with ⟨p, op, of, c, ha⟩
  cases p <;>
    simp only [pendingCount, liveCount, ptrPendingCount, ptrLiveCount] <;>
    omega

/-- A byte string, as Python `bytes`: a list of naturals below 256. -/
abbrev Bytes := List Nat

/-- The URL-safe base64 symbol alphabet of `base64.urlsafe_b64encode`,
mapping a sextet index (0-63) to its ASCII code, and the padding marker 64
to the code of `'='`. -/
def b64CharOf (s : Nat) : Nat :=
  if s < 26 then 65 + s
  else if s < 52 then 71 + s
  else if s < 62 then s - 4
  else if s = 62 then 45
  else if s = 63 then 95
  else 61

/-- Inverse of the URL-safe base64 alphabet: an alphabet character maps to
its sextet index and `'='` maps to the padding marker 64 (any other
character would make `base64.urlsafe_b64decode` fail; such tokens are
outside the round trip this development exercises). -/
def b64DecodeChar (c : Nat) : Nat :=
  if 65 ≤ c ∧ c ≤ 90 then c - 65
  else if 97 ≤ c ∧ c ≤ 122 then c - 71
  else if 48 ≤ c ∧ c ≤ 57 then c + 4
  else if c = 45 then 62
  else if c = 95 then 63
  else 64

/-- Base64 encoding of a byte string into sextet indices (with the marker 64
standing for the `'='` padding), three input bytes per four output symbols,
exactly as `base64.b64encode` chunks its input. -/
def b64Encode : Bytes → List Nat
  | [] => []
  | [a] => [a / 4, a % 4 * 16, 64, 64]
  | [a, b] => [a / 4, a % 4 * 16 + b / 16, b % 16 * 4, 64]
  | a :: b :: c :: rest =>
    a / 4 :: (a % 4 * 16 + b / 16) :: (b % 16 * 4 + c / 64) :: c % 64 :: b64Encode rest

/-- Base64 decoding from sextet indices (64 = padding) back to bytes,
four symbols per three output bytes, with `'='` padding accepted only at
the end of a chunk as `b64decode` does for well-formed input. -/
def b64Decode : List Nat → Bytes
  | s1 :: s2 :: s3 :: s4 :: rest =>
    if s3 = 64 then [s1 * 4 + s2 / 16]
    else if s4 = 64 then [s1 * 4 + s2 / 16, s2 % 16 * 16 + s3 / 4]
    else (s1 * 4 + s2 / 16) :: (s2 % 16 * 16 + s3 / 4) :: (s3 % 4 * 64 + s4)
           :: b64Decode rest
  | _ => []

/-- `user_id.to_bytes(k, "big")`: the `k`-byte big-endian encoding. -/
def toBytesBE : Nat → Nat → Bytes
  | 0, _ => []
  | k + 1, n => toBytesBE k (n / 256) ++ [n % 256]

/-- `int.from_bytes(bs, "big")`. -/
def fromBytesBE (bs : Bytes) : Nat :=
  bs.foldl (fun acc b => acc * 256 + b) 0

/-- `generate_access_token_signature(user_id, timestamp, secret_key)`
(src/flowstate/auth.py lines 37-39): the HMAC-SHA256 hex digest of
`user_id.to_bytes(8, "big") + timestamp.encode()` under the key. The digest
function itself is the out-of-scope codec collaborator; it enters as the
parameter `hmacHex`, a function from key and message bytes to the digest's
ASCII bytes (for real HMAC-SHA256 hexdigests: 64 bytes, each an ASCII hex
character). -/
def generate_access_token_signature (hmacHex : Bytes → Bytes → Bytes)
    (userId : Nat) (timestamp : Bytes) (secretKey : Bytes) : Bytes :=
  hmacHex secretKey (toBytesBE 8 userId ++ timestamp)

/-- `generate_access_token(user_id, secret_key)` (src/flowstate/auth.py
lines 29-34): the payload is the 8-byte big-endian user id, the ISO
timestamp bytes (`datetime.now(UTC).isoformat().encode()`, passed in as the
parameter `timestamp` since the clock is external), and the ASCII signature;
the token is the URL-safe base64 encoding of that payload, returned as the
list of its character codes. -/
def generate_access_token (hmacHex : Bytes → Bytes → Bytes)
    (userId : Nat) (timestamp : Bytes) (secretKey : Bytes) : List Nat :=
  ((b64Encode (toBytesBE 8 userId ++ timestamp
      ++ generate_access_token_signature hmacHex userId timestamp secretKey)).map
    b64CharOf)

/-- `verify_access_token(token, secret_key)` (src/flowstate/auth.py
lines 53-64): decode the token, split the payload as `payload[:8]`,
`payload[8:-64]` and `payload[-64:]` (Python slice semantics), recompute
the signature over the recovered user id and timestamp, and return the user
id exactly when the signatures match. Decoding errors are suppressed to
`None` in the source; the model's total decoder cannot raise, which is
immaterial for tokens produced by `generate_access_token`. -/
def verify_access_token (hmacHex : Bytes → Bytes → Bytes)
    (token : List Nat) (secretKey : Bytes) : Option Nat :=
  let payload := b64Decode (token.map b64DecodeChar)
  let userIdBytes := payload.take 8
  let timestamp := (payload.take (payload.length - 64)).drop 8
  let signature := payload.drop (payload.length - 64)
  let userId := fromBytesBE userIdBytes
  let expected := generate_access_token_signature hmacHex userId timestamp secretKey
  if signature = expected then some userId else none

theorem b64CharOf_decodeChar (s : Nat) (h : s ≤ 64) : b64DecodeChar (b64CharOf s) = s := by
  interval_cases s <;> decide

theorem map_b64Char_roundtrip (l : List Nat) (h : ∀ x ∈ l, x ≤ 64) :
    (l.map b64CharOf).map b64DecodeChar = l := by
  induction l with
  | nil => rfl
  | cons a rest ih =>
    simp only [List.map_cons, List.cons.injEq]
    exact ⟨b64CharOf_decodeChar a (h a (by simp)),
           ih (fun x hx => h x (by simp [hx]))⟩

theorem b64Encode_bounds (bs : Bytes) (h : ∀ x ∈ bs, x < 256) :
    ∀ y ∈ b64Encode bs, y ≤ 64 := by
  match bs with
  | [] => simp [b64Encode]
  | [a] =>
    have ha := h a (by simp)
    simp only [b64Encode, List.mem_cons]
    intro y hy
    rcases hy with h1 | h1 | h1 | h1 | h1 <;> simp_all <;> omega
  | [a, b] =>
    have ha := h a (by simp)
    have hb := h b (by simp)
    simp only [b64Encode, List.mem_cons]
    intro y hy
    rcases hy with h1 | h1 | h1 | h1 | h1 <;> simp_all <;> omega
  | a :: b :: c :: rest =>
    have ha := h a (by simp)
    have hb := h b (by simp)
    have hc := h c (by simp)
    have ih := b64Encode_bounds rest (fun x hx => h x (by simp [hx]))
    simp only [b64Encode, List.mem_cons]
    intro y hy
    rcases hy with h1 | h1 | h1 | h1 | h1
    · omega
    · omega
    · omega
    · omega
    · exact ih y h1

theorem b64_roundtrip (bs : Bytes) (h : ∀ x ∈ bs, x < 256) :
    b64Decode (b64Encode bs) = bs := by
  match bs with
  | [] => rfl
  | [a] =>
    have ha := h a (by simp)
    simp [b64Encode, b64Decode]
    all_goals omega
  | [a, b] =>
    have ha := h a (by simp)
    have hb := h b (by simp)
    simp only [b64Encode, b64Decode]
    rw [if_neg (by omega)]
    simp
    all_goals omega
  | a :: b :: c :: rest =>
    have ha := h a (by simp)
    have hb := h b (by simp)
    have hc := h c (by simp)
    have ih := b64_roundtrip rest (fun x hx => h x (by simp [hx]))
    simp only [b64Encode, b64Decode]
    rw [if_neg (by omega), if_neg (by omega)]
    simp [ih]
    all_goals omega

theorem toBytesBE_length (k n : Nat) : (toBytesBE k n).length = k := by
  induction k generalizing n with
  | zero => rfl
  | succ k ih => simp [toBytesBE, ih]

theorem toBytesBE_bounds (k n : Nat) : ∀ x ∈ toBytesBE k n, x < 256 := by
  induction k generalizing n with
  | zero => simp [toBytesBE]
  | succ k ih =>
    intro x hx
    simp only [toBytesBE, List.mem_append, List.mem_singleton] at hx
    rcases hx with hx | hx
    · exact ih (n / 256) x hx
    · omega

theorem fromBytesBE_toBytesBE (k n : Nat) (h : n < 256 ^ k) :
    fromBytesBE (toBytesBE k n) = n := by
  induction k generalizing n with
  | zero =>
    simp only [pow_zero, Nat.lt_one_iff] at h
    simp [h, toBytesBE, fromBytesBE]
  | succ k ih =>
    have hdiv : n / 256 < 256 ^ k := by
      rw [Nat.div_lt_iff_lt_mul (by norm_num)]
      calc n < 256 ^ (k + 1) := h
        _ = 256 ^ k * 256 := by rw [pow_succ]
    simp only [toBytesBE, fromBytesBE, List.foldl_append, List.foldl_cons, List.foldl_nil]
    have hrec := ih (n / 256) hdiv
    simp only [fromBytesBE] at hrec
    rw [hrec]
    omega

/-- C10: Access-token round-trip — for every user id below `2^64` and every
secret key, verifying a freshly generated access token returns exactly that
user id. The timestamp and the HMAC hex-digest collaborator are parameters;
the only facts used about the digest are the ones true of
`hmac.new(..., "sha256").hexdigest().encode()`: it is a deterministic
function of key and message producing 64 ASCII bytes. -/
theorem C10_access_token_roundtrip
    (hmacHex : Bytes → Bytes → Bytes) (userId : Nat) (timestamp secretKey : Bytes)
    (huid : userId < 2 ^ 64)
    (hts : ∀ x ∈ timestamp, x < 256)
    (hlen : (hmacHex secretKey (toBytesBE 8 userId ++ timestamp)).length = 64)
    (hsig : ∀ x ∈ hmacHex secretKey (toBytesBE 8 userId ++ timestamp), x < 256) :
    verify_access_token hmacHex
      (generate_access_token hmacHex userId timestamp secretKey) secretKey = some userId := by
  have hA : (toBytesBE 8 userId).length = 8 := toBytesBE_length 8 userId
  have hpayload : ∀ x ∈ toBytesBE 8 userId ++ timestamp
      ++ hmacHex secretKey (toBytesBE 8 userId ++ timestamp), x < 256 := by
    intro x hx
    rcases List.mem_append.1 hx with hx | hx
    · rcases List.mem_append.1 hx with hx | hx
      · exact toBytesBE_bounds 8 userId x hx
      · exact hts x hx
    · exact hsig x hx
  simp only [verify_access_token, generate_access_token, generate_access_token_signature]
  rw [map_b64Char_roundtrip _ (b64Encode_bounds _ hpayload)]
  rw [b64_roundtrip _ hpayload]
  have hcut : (toBytesBE 8 userId ++ timestamp
      ++ hmacHex secretKey (toBytesBE 8 userId ++ timestamp)).length - 64
      = (toBytesBE 8 userId ++ timestamp).length := by
    simp [hA, hlen]
    omega
  have h1 : (toBytesBE 8 userId ++ timestamp
      ++ hmacHex secretKey (toBytesBE 8 userId ++ timestamp)).take 8
      = toBytesBE 8 userId := by
    rw [List.take_append_of_le_length (by simp [hA]), List.take_left' hA]
  have h2 : (toBytesBE 8 userId ++ timestamp
      ++ hmacHex secretKey (toBytesBE 8 userId ++ timestamp)).take
        ((toBytesBE 8 userId ++ timestamp
          ++ hmacHex secretKey (toBytesBE 8 userId ++ timestamp)).length - 64)
      = toBytesBE 8 userId ++ timestamp := by
    rw [hcut, List.take_left]
  have h3 : (toBytesBE 8 userId ++ timestamp
      ++ hmacHex secretKey (toBytesBE 8 userId ++ timestamp)).drop
        ((toBytesBE 8 userId ++ timestamp
          ++ hmacHex secretKey (toBytesBE 8 userId ++ timestamp)).length - 64)
      = hmacHex secretKey (toBytesBE 8 userId ++ timestamp) := by
    rw [hcut, List.drop_left]
  rw [h2, h1, h3]
  have h4 : fromBytesBE (toBytesBE 8 userId) = userId := by
    apply fromBytesBE_toBytesBE
    have h28 : (256 : Nat) ^ 8 = 2 ^ 64 := by norm_num
    omega
  rw [List.drop_left' hA, h4, if_pos rfl]

/-- C1 (amended): for every registered tool and every argument list that
binds successfully against the tool's declared signature AND whose progress
label resolves from the bound arguments, the wrapper invokes the underlying
body exactly once; a returning body's result is passed through unchanged,
and a raising body's exception is converted to the string
"Error in tool <attribute name>: <message>" without propagating. (The extra
label condition is forced by the counterexample: label formatting happens
between binding and the `try`.) -/
theorem C1_tool_dispatch_roundtrip (t : ToolDescr) (kwargs bound : PyKwargs) (label : String)
    (hbind : pyBind t.params kwargs = .ok bound)
    (hlabel : resolveLabel (toolTemplate t) bound = .ok label) :
    (run_tool t kwargs).bodyInvocations = 1 ∧
    (∀ v, t.body bound = .ok v → (run_tool t kwargs).result = .ok v) ∧
    (∀ e, t.body bound = .error e → (run_tool t kwargs).result
      = .ok (.str ("Error in tool " ++ t.attrName ++ ": " ++ pyExcMsg e))) := by
  refine ⟨?_, ?_, ?_⟩
  · simp only [run_tool, hbind, hlabel]
    cases hb : t.body bound <;> simp [hb]
  · intro v hv
    simp [run_tool, hbind, hlabel, hv]
  · intro e he
    simp [run_tool, hbind, hlabel, he]

/-- C1 witness: the round-trip at a concrete registered tool
(`create_github_link`) and a concrete binding argument list. -/
theorem C1_witness :
    (run_tool createGithubLinkDescr [("file_path", PyValue.str "README.md")]).bodyInvocations = 1 ∧
    (∀ v, createGithubLinkDescr.body [("file_path", PyValue.str "README.md")] = .ok v →
      (run_tool createGithubLinkDescr [("file_path", PyValue.str "README.md")]).result = .ok v) ∧
    (∀ e, createGithubLinkDescr.body [("file_path", PyValue.str "README.md")] = .error e →
      (run_tool createGithubLinkDescr [("file_path", PyValue.str "README.md")]).result
        = .ok (.str ("Error in tool " ++ createGithubLinkDescr.attrName ++ ": " ++ pyExcMsg e))) :=
  C1_tool_dispatch_roundtrip createGithubLinkDescr
    [("file_path", PyValue.str "README.md")] [("file_path", PyValue.str "README.md")]
    "create_github_link" rfl rfl

/-- C1 counterexample: the registered tool `create_task` (every parameter
defaulted, label "Creating task {title} in {project_name}") called with only
`title` — the binding succeeds, yet the wrapper raises `KeyError` while
formatting the label and the body is never invoked, so the claim as stated
(body invoked exactly once whenever binding succeeds, exceptions never
propagated) is false on the code. -/
theorem C1_counterexample_label_keyerror :
    pyBind createTaskDescr.params [("title", PyValue.str "Buy hummus")]
      = .ok [("title", PyValue.str "Buy hummus")] ∧
    (run_tool createTaskDescr [("title", PyValue.str "Buy hummus")]).result
      = .error (.keyError "project_name") ∧
    (run_tool createTaskDescr [("title", PyValue.str "Buy hummus")]).bodyInvocations = 0 :=
  ⟨rfl, rfl, rfl⟩

/-- C2: history is appended on success only — if the single
`self.agent.run` call raises, `send_prompt` leaves the history exactly as it
was and propagates the error; if it succeeds, the history grows by exactly
that exchange's new messages and the output is returned. -/
theorem C2_history_append_on_success_only {Msg Out Err : Type}
    (history : List Msg) (prompt : String)
    (run : Nat → String → List Msg → Except Err (RunResp Msg Out)) :
    (∀ e, run 0 prompt history = .error e →
      (send_prompt history prompt run).history = history ∧
      (send_prompt history prompt run).result = .error e) ∧
    (∀ r, run 0 prompt history = .ok r →
      (send_prompt history prompt run).history = history ++ r.newMessages ∧
      (send_prompt history prompt run).result = .ok r.output) := by
  constructor
  · intro e he
    simp [send_prompt, he]
  · intro r hr
    simp [send_prompt, hr]

/-- C2 witness: a concrete successful exchange grows a concrete history by
exactly the exchange's new messages. -/
theorem C2_witness :
    (@send_prompt String String String ["hi"] "p"
      (fun _ _ _ => .ok ⟨["m1", "m2"], "out"⟩)).history = ["hi", "m1", "m2"] :=
  ((C2_history_append_on_success_only ["hi"] "p"
      (fun _ _ _ => .ok ⟨["m1", "m2"], "out"⟩)).2 ⟨["m1", "m2"], "out"⟩ rfl).1

/-- C4 counterexample: a subclass whose docstring is the empty string is
constructed successfully — no `ConfigurationError` (indeed no error at all)
is raised, and the agent silently gets the bare prefix as its prompt. -/
theorem C4_counterexample_empty_docstring :
    agentInit (initSubclassPrompt ⟨some "", [("authenticate_user", true)]⟩)
      = .ok "Always format dates in a nice human format.\n" := rfl

/-- C4 (amended): the code performs no docstring validation anywhere — a
missing docstring (`None`) makes construction fail with `TypeError` from
string concatenation, and any present docstring (the empty string included)
makes construction succeed with the prefixed prompt. `ConfigurationError`
does not exist in the codebase. -/
theorem C4_doc_validation (cls : ClsDecl) :
    (cls.doc = none → agentInit (initSubclassPrompt cls)
      = .error (.typeError "can only concatenate str (not \"NoneType\") to str")) ∧
    (∀ s, cls.doc = some s → agentInit (initSubclassPrompt cls)
      = .ok ("Always format dates in a nice human format.\n" ++ s)) := by
  constructor
  · intro h
    simp [agentInit, initSubclassPrompt, h]
  · intro s h
    simp [agentInit, initSubclassPrompt, h]

/-- C4 witness: at a concrete docstring-less subclass, construction fails
with the concatenation `TypeError`. -/
theorem C4_witness :
    agentInit (initSubclassPrompt ⟨none, [("authenticate_user", true)]⟩)
      = .error (.typeError "can only concatenate str (not \"NoneType\") to str") :=
  (C4_doc_validation ⟨none, [("authenticate_user", true)]⟩).1 rfl

/-- C5 counterexample: calling the registered tool `create_github_link`
with no arguments fails binding, and the `TypeError` propagates out of the
wrapped tool (the result is an exception, not an error-string tool result),
contradicting the claim that binding failures are surfaced to the model as
an error string. -/
theorem C5_counterexample_binding_propagates :
    (run_tool createGithubLinkDescr []).result
      = .error (.typeError "missing a required argument: 'file_path'") ∧
    (run_tool createGithubLinkDescr []).bodyInvocations = 0 :=
  ⟨rfl, rfl⟩

/-- C5 (amended): when argument binding fails, `run_tool` raises the binding
exception to its caller — the body is never invoked and no error-string
result is produced; only exceptions raised by the tool body itself are
converted to error strings (binding happens outside the `try`). -/
theorem C5_binding_failure_propagates (t : ToolDescr) (kwargs : PyKwargs) (e : PyExc)
    (hbind : pyBind t.params kwargs = .error e) :
    (run_tool t kwargs).result = .error e ∧ (run_tool t kwargs).bodyInvocations = 0 := by
  simp [run_tool, hbind]

/-- C5 witness: the amended behaviour at the concrete no-argument call. -/
theorem C5_witness :
    (run_tool createGithubLinkDescr []).result
      = .error (.typeError "missing a required argument: 'file_path'") ∧
    (run_tool createGithubLinkDescr []).bodyInvocations = 0 :=
  C5_binding_failure_propagates createGithubLinkDescr []
    (.typeError "missing a required argument: 'file_path'") rfl

/-- A model collaborator that fails on the first attempt and would succeed
on a second attempt — distinguishing a retrying implementation from a
single-shot one. -/
def failThenOk : Nat → String → List String → Except String (RunResp String String) :=
  fun n _ _ => if n = 0 then .error "model timeout" else .ok ⟨[], "recovered"⟩

/-- C6 counterexample: against a collaborator whose first attempt fails and
whose second attempt would succeed, `send_prompt` makes exactly one model
call and propagates the failure — so the claimed retry bound of 3 attempts
with backoff does not exist (a compliant implementation would have retried
and returned "recovered"). -/
theorem C6_counterexample_no_retry :
    (send_prompt ([] : List String) "p" failThenOk).result = .error "model timeout" ∧
    (send_prompt ([] : List String) "p" failThenOk).modelCalls = 1 :=
  ⟨rfl, rfl⟩

/-- C6 (amended): `send_prompt` performs exactly one model-collaborator call
per prompt submission and, when that call fails, propagates the failure
immediately — no retry, no backoff, and no `ModelUnavailableError`
translation exist in the code. -/
theorem C6_single_model_call {Msg Out Err : Type} (history : List Msg) (prompt : String)
    (run : Nat → String → List Msg → Except Err (RunResp Msg Out)) :
    (send_prompt history prompt run).modelCalls = 1 ∧
    (∀ e, run 0 prompt history = .error e →
      (send_prompt history prompt run).result = .error e) := by
  constructor
  · unfold send_prompt
    cases run 0 prompt history <;> rfl
  · intro e he
    simp [send_prompt, he]

/-- C6 witness: the amended single-call behaviour at the concrete
fail-then-succeed collaborator. -/
theorem C6_witness :
    (send_prompt ([] : List String) "q" failThenOk).modelCalls = 1 :=
  (C6_single_model_call [] "q" failThenOk).1

theorem strLexLt_asymm (a : List Char) : ∀ b, strLexLt a b = true → strLexLt b a = false := by
  induction a with
  | nil =>
    intro b hab
    cases b with
    | nil => exact absurd hab (by simp [strLexLt])
    | cons y ys => simp [strLexLt]
  | cons x xs ih =>
    intro b hab
    cases b with
    | nil => exact absurd hab (by simp [strLexLt])
    | cons y ys =>
      simp only [strLexLt] at hab ⊢
      by_cases h1 : x.toNat < y.toNat
      · rw [if_neg (by omega), if_pos h1]
      · by_cases h2 : y.toNat < x.toNat
        · rw [if_neg h1, if_pos h2] at hab
          exact absurd hab (by simp)
        · rw [if_neg h1, if_neg h2] at hab
          rw [if_neg h2, if_neg h1]
          exact ih ys hab

theorem strLexLt_trans (a : List Char) :
    ∀ b c, strLexLt a b = true → strLexLt b c = true → strLexLt a c = true := by
  induction a with
  | nil =>
    intro b c hab hbc
    cases b with
    | nil => exact absurd hab (by simp [strLexLt])
    | cons y ys =>
      cases c with
      | nil => exact absurd hbc (by simp [strLexLt])
      | cons z zs => simp [strLexLt]
  | cons x xs ih =>
    intro b c hab hbc
    cases b with
    | nil => exact absurd hab (by simp [strLexLt])
    | cons y ys =>
      cases c with
      | nil => exact absurd hbc (by simp [strLexLt])
      | cons z zs =>
        simp only [strLexLt] at hab hbc ⊢
        by_cases h1 : x.toNat < y.toNat
        · by_cases h2 : y.toNat < z.toNat
          · rw [if_pos (by omega)]
          · by_cases h3 : z.toNat < y.toNat
            · rw [if_neg h2, if_pos h3] at hbc
              exact absurd hbc (by simp)
            · rw [if_pos (by omega)]
        · by_cases h1b : y.toNat < x.toNat
          · rw [if_neg h1, if_pos h1b] at hab
            exact absurd hab (by simp)
          · rw [if_neg h1, if_neg h1b] at hab
            by_cases h2 : y.toNat < z.toNat
            · rw [if_pos (by omega)]
            · by_cases h3 : z.toNat < y.toNat
              · rw [if_neg h2, if_pos h3] at hbc
                exact absurd hbc (by simp)
              · rw [if_neg h2, if_neg h3] at hbc
                rw [if_neg (by omega), if_neg (by omega)]
                exact ih ys zs hab hbc

theorem strLexLt_connex (a : List Char) :
    ∀ b, strLexLt a b = false → strLexLt b a = false → a = b := by
  induction a with
  | nil =>
    intro b hab _hba
    cases b with
    | nil => rfl
    | cons y ys => exact absurd hab (by simp [strLexLt])
  | cons x xs ih =>
    intro b hab hba
    cases b with
    | nil => exact absurd hba (by simp [strLexLt])
    | cons y ys =>
      simp only [strLexLt] at hab hba
      by_cases h1 : x.toNat < y.toNat
      · rw [if_pos h1] at hab
        exact absurd hab (by simp)
      · by_cases h2 : y.toNat < x.toNat
        · rw [if_pos h2] at hba
          exact absurd hba (by simp)
        · rw [if_neg h1, if_neg h2] at hab
          rw [if_neg h2, if_neg h1] at hba
          have hval : x.toNat = y.toNat := by omega
          have hxy : x = y := Char.ext (UInt32.ext hval)
          rw [hxy, ih ys hab hba]

instance : IsTotal String pyStrLeRel where
  total a b := by
    unfold pyStrLeRel pyStrLe
    by_cases h : strLexLt b.data a.data = true
    · right
      rw [strLexLt_asymm _ _ h]
      rfl
    · left
      simp at h
      rw [h]
      rfl

instance : IsTrans String pyStrLeRel where
  trans a b c hab hbc := by
    unfold pyStrLeRel pyStrLe at hab hbc ⊢
    simp only [Bool.not_eq_true'] at hab hbc ⊢
    by_cases hca : strLexLt c.data a.data = true
    · by_cases hbc2 : strLexLt b.data c.data = true
      · have hba := strLexLt_trans _ _ _ hbc2 hca
        rw [hba] at hab
        exact absurd hab (by simp)
      · simp only [Bool.not_eq_true] at hbc2
        have heq : b.data = c.data := strLexLt_connex _ _ hbc2 hbc
        rw [← heq] at hca
        rw [hca] at hab
        exact absurd hab (by simp)
    · simpa using hca

instance : IsAntisymm String pyStrLeRel where
  antisymm a b hab hba := by
    unfold pyStrLeRel pyStrLe at hab hba
    simp only [Bool.not_eq_true'] at hab hba
    have hdata : a.data = b.data := strLexLt_connex _ _ hba hab
    exact String.ext hdata

theorem lookup_nodup_iff (l : List (String × Bool)) (hnd : (l.map Prod.fst).Nodup)
    (n : String) (b : Bool) :
    l.lookup n = some b ↔ (n, b) ∈ l := by
  induction l with
  | nil => simp [List.lookup]
  | cons hd tl ih =>
    obtain ⟨m, c⟩ := hd
    simp only [List.map_cons, List.nodup_cons] at hnd
    obtain ⟨hm, hnd2⟩ := hnd
    by_cases hnm : n = m
    · subst hnm
      simp only [List.lookup, beq_self_eq_true, if_pos]
      constructor
      · rintro h
        injection h with h
        subst h
        exact List.mem_cons_self _ _
      · intro h
        rcases List.mem_cons.1 h with h | h
        · injection h with h1 h2
          subst h2
          rfl
        · exact absurd (List.mem_map_of_mem Prod.fst h) hm
    · have hbeq : (n == m) = false := by
        simpa using hnm
      simp only [List.lookup, hbeq]
      rw [ih hnd2]
      constructor
      · exact fun h => List.mem_cons_of_mem _ h
      · intro h
        rcases List.mem_cons.1 h with h | h
        · exact absurd (congrArg Prod.fst h) hnm
        · exact h

theorem callableOf_iff (cls : ClsDecl) (hnd : (cls.declared.map Prod.fst).Nodup) (n : String) :
    callableOf cls n = true ↔ (n, true) ∈ cls.declared := by
  unfold callableOf
  rw [← lookup_nodup_iff cls.declared hnd n true]
  cases h : cls.declared.lookup n with
  | none => simp
  | some b => cases b <;> simp

theorem tools_mem_iff (cls : ClsDecl) (hnd : (cls.declared.map Prod.fst).Nodup) (a : String) :
    a ∈ initSubclassTools cls ↔ a ∈ specDeclarationOrderTools cls := by
  unfold initSubclassTools specDeclarationOrderTools dirOf
  rw [List.mem_filter]
  rw [(List.perm_insertionSort _ _).mem_iff, List.mem_dedup, List.mem_append]
  simp only [Bool.and_eq_true, Bool.not_eq_true']
  constructor
  · rintro ⟨_hdir, ⟨hstart, hbase⟩, hcall⟩
    have hpair : (a, true) ∈ cls.declared := (callableOf_iff cls hnd a).1 hcall
    refine List.mem_map.2 ⟨(a, true), List.mem_filter.2 ⟨hpair, ?_⟩, rfl⟩
    have hnotb : a ∉ agentBaseAttrs := by simpa using hbase
    simp [hstart, hnotb]
  · intro h
    obtain ⟨⟨a1, b1⟩, hmf, hfst⟩ := List.mem_map.1 h
    obtain ⟨hin, hq⟩ := List.mem_filter.1 hmf
    simp only at hfst
    subst hfst
    simp only [Bool.and_eq_true, Bool.not_eq_true'] at hq
    obtain ⟨⟨hstart, hbase⟩, hb1⟩ := hq
    subst hb1
    refine ⟨Or.inr (List.mem_map_of_mem Prod.fst hin), ⟨hstart, hbase⟩, ?_⟩
    exact (callableOf_iff cls hnd a1).2 hin

theorem tools_eq_sorted (cls : ClsDecl) (hnd : (cls.declared.map Prod.fst).Nodup) :
    initSubclassTools cls = List.insertionSort pyStrLeRel (specDeclarationOrderTools cls) := by
  have hnd1 : (initSubclassTools cls).Nodup := by
    unfold initSubclassTools dirOf
    exact List.Nodup.filter _
      (((List.perm_insertionSort pyStrLeRel _).nodup_iff).2 (List.nodup_dedup _))
  have hndspec : (specDeclarationOrderTools cls).Nodup := by
    unfold specDeclarationOrderTools
    exact hnd.sublist ((List.filter_sublist _).map _)
  have hnd2 : (List.insertionSort pyStrLeRel (specDeclarationOrderTools cls)).Nodup :=
    ((List.perm_insertionSort pyStrLeRel _).nodup_iff).2 hndspec
  have hs1 : List.Sorted pyStrLeRel (initSubclassTools cls) := by
    unfold initSubclassTools
    exact List.Pairwise.sublist (List.filter_sublist _) (List.sorted_insertionSort _ _)
  have hs2 : List.Sorted pyStrLeRel
      (List.insertionSort pyStrLeRel (specDeclarationOrderTools cls)) :=
    List.sorted_insertionSort _ _
  have hperm : (initSubclassTools cls).Perm
      (List.insertionSort pyStrLeRel (specDeclarationOrderTools cls)) := by
    rw [List.perm_ext_iff_of_nodup hnd1 hnd2]
    intro a
    rw [tools_mem_iff cls hnd a, (List.perm_insertionSort _ _).mem_iff]
  exact List.eq_of_perm_of_sorted hperm hs1 hs2

/-- C3 (amended): for every direct agent subclass with a (non-empty)
docstring and distinct attribute names, the tool list computed at
type-definition time contains exactly the public callable attributes
defined beyond the base `Agent` type, but in alphabetical order (Python's
`dir` sorts) rather than declaration order, and the recorded system prompt
is the docstring verbatim. -/
theorem C3_tools_alphabetical (cls : ClsDecl) (doc : String)
    (hdoc : cls.doc = some doc) (_hne : doc ≠ "")
    (hnd : (cls.declared.map Prod.fst).Nodup) :
    initSubclassTools cls = List.insertionSort pyStrLeRel (specDeclarationOrderTools cls) ∧
    initSubclassPrompt cls = some doc :=
  ⟨tools_eq_sorted cls hnd, by rw [initSubclassPrompt, hdoc]⟩

/-- C3 witness: the amended statement at the concrete two-tool subclass. -/
theorem C3_witness :
    initSubclassTools demoCls
      = List.insertionSort pyStrLeRel (specDeclarationOrderTools demoCls) ∧
    initSubclassPrompt demoCls
      = some "You are the invisible coordinator for the app Do." :=
  C3_tools_alphabetical demoCls "You are the invisible coordinator for the app Do."
    rfl (by decide) (by decide)

/-- C3 counterexample: `DoAgent` declares `format_date` before
`create_project`; the computed tool list is alphabetical, so it differs
from the declaration-order list the claim specifies. -/
theorem C3_counterexample_declaration_order :
    initSubclassTools demoCls = ["create_project", "format_date"] ∧
    specDeclarationOrderTools demoCls = ["format_date", "create_project"] ∧
    initSubclassTools demoCls ≠ specDeclarationOrderTools demoCls :=
  ⟨by decide, by decide, by decide⟩

/-- C7 counterexample: the startup race. From `nudgeInit` (`on_connect`
launched by `create_chat`, no nudge task yet), an inbound prompt is fully
handled first — its cancel step finds `self.nudge_task` empty (nothing to
cancel) and its final step schedules a nudge; `on_connect` then reaches
line 91 and overwrites `self.nudge_task` with a second freshly created
nudge without cancelling the first. The reached state has TWO tasks in the
"scheduled, not yet fired" state, refuting the claim that at most one is
pending at every point of the connection's lifetime. -/
theorem C7_counterexample_startup_race :
    NudgeReachable ⟨.pending, 1, 0, false, false⟩ ∧
    pendingCount ⟨.pending, 1, 0, false, false⟩ = 2 := by
  constructor
  · have h1 : NudgeStep nudgeInit ⟨.dead, 0, 0, true, true⟩ :=
      NudgeStep.inboundCancel nudgeInit
    have h2 : NudgeStep ⟨.dead, 0, 0, true, true⟩ ⟨.pending, 0, 0, true, false⟩ :=
      NudgeStep.inboundSchedule ⟨.dead, 0, 0, true, true⟩ rfl
    have h3 : NudgeStep ⟨.pending, 0, 0, true, false⟩ ⟨.pending, 1, 0, false, false⟩ :=
      NudgeStep.onConnectSchedule ⟨.pending, 0, 0, true, false⟩ rfl
    exact Relation.ReflTransGen.tail
      (Relation.ReflTransGen.tail (Relation.ReflTransGen.single h1) h2) h3
  · rfl

/-- C7 (amended): the at-most-one-pending-nudge claim holds except in the
connection-startup race, where it degrades to two: (a) in every reachable
state of a connection, at most two nudge tasks are in the "scheduled, not
yet fired" state; and (b) in every execution where `on_connect`'s initial
nudge creation runs before any inbound message is processed, at most one
nudge task is scheduled-not-yet-fired at every later point. -/
theorem C7_nudge_pending_bound (s t : NudgeState)
    (hs : NudgeReachable s)
    (ht : Relation.ReflTransGen NudgeStep postOnConnect t) :
    pendingCount s ≤ 2 ∧ pendingCount t ≤ 1 := by
  constructor
  · obtain ⟨i1, _, _, _⟩ := nudgeInv_reachable hs
    have hle := pendingCount_le_liveCount s
    omega
  · obtain ⟨_, _, i3, _⟩ := nudgeInvSettled_reachable ht
    have hle := pendingCount_le_liveCount t
    omega

/-- C7 witness: the amended bounds at a state one cancel-step into a raced
execution and at the race-free start state. -/
theorem C7_witness :
    pendingCount ⟨.dead, 0, 0, true, true⟩ ≤ 2 ∧ pendingCount postOnConnect ≤ 1 :=
  C7_nudge_pending_bound ⟨.dead, 0, 0, true, true⟩ postOnConnect
    (Relation.ReflTransGen.single (NudgeStep.inboundCancel nudgeInit))
    Relation.ReflTransGen.refl

/-- C8 counterexample: in `FlowstateChat` the first idle window is also
`random.randint(60, 300)` — with a draw of 0 it is 60 seconds, not the fixed
5 minutes the claim states. -/
theorem C8_counterexample_first_delay :
    flowstateNudgeDelay (fun _ => 0) 0 = 60 ∧
    flowstateNudgeDelay (fun _ => 0) 0 ≠ 5 * 60 :=
  ⟨rfl, by decide⟩

/-- C8 (amended): in `FlowstateChat` every idle window — the first included —
is drawn from the inclusive range 60..300 seconds; the fixed 5-minute first
window exists only in the legacy `chat_websocket` handler, whose subsequent
windows are drawn from 60..300; a `prompt` message cancels the pending nudge
and schedules a fresh one, while an unknown-kind message leaves the nudge
untouched. -/
theorem C8_nudge_delay_schedule (draws : Nat → Nat) (n : Nat) (reply : String) :
    (60 ≤ flowstateNudgeDelay draws n ∧ flowstateNudgeDelay draws n ≤ 300) ∧
    legacyNudgeDelay draws 0 = 5 * 60 ∧
    (1 ≤ n → 60 ≤ legacyNudgeDelay draws n ∧ legacyNudgeDelay draws n ≤ 300) ∧
    ((listenStepJson reply
        [("kind", PyValue.str "prompt"), ("prompt", PyValue.str "hi")]).nudgeCancelled = true ∧
     (listenStepJson reply
        [("kind", PyValue.str "prompt"), ("prompt", PyValue.str "hi")]).nudgeScheduled = true) ∧
    (listenStepJson reply [("kind", PyValue.str "frobnicate")]).nudgeCancelled = false := by
  refine ⟨⟨?_, ?_⟩, rfl, ?_, ⟨rfl, rfl⟩, rfl⟩
  · unfold flowstateNudgeDelay randint
    omega
  · unfold flowstateNudgeDelay randint
    omega
  · intro hn
    match n, hn with
    | n + 1, _ =>
      simp only [legacyNudgeDelay, randint]
      constructor <;> omega

/-- C8 witness: the amended statement at a concrete draw sequence. -/
theorem C8_witness :
    (60 ≤ flowstateNudgeDelay (fun _ => 7) 1 ∧ flowstateNudgeDelay (fun _ => 7) 1 ≤ 300) ∧
    legacyNudgeDelay (fun _ => 7) 0 = 5 * 60 ∧
    (1 ≤ 1 → 60 ≤ legacyNudgeDelay (fun _ => 7) 1 ∧ legacyNudgeDelay (fun _ => 7) 1 ≤ 300) ∧
    ((listenStepJson "ok"
        [("kind", PyValue.str "prompt"), ("prompt", PyValue.str "hi")]).nudgeCancelled = true ∧
     (listenStepJson "ok"
        [("kind", PyValue.str "prompt"), ("prompt", PyValue.str "hi")]).nudgeScheduled = true) ∧
    (listenStepJson "ok" [("kind", PyValue.str "frobnicate")]).nudgeCancelled = false :=
  C8_nudge_delay_schedule (fun _ => 7) 1 "ok"

/-- C9 counterexample: the message with both keys,
`kind = "frobnicate"` and `type = "complete_task"`, has a kind that names no
handler, yet `listen` routes it to `complete_task_handler` first and emits
no error event — so the claim as stated (any message whose kind names no
handler gets exactly one error event and invokes no handler) is false. -/
theorem C9_counterexample_type_key_bypass :
    (listenStepJson "ok"
      [("kind", PyValue.str "frobnicate"), ("type", PyValue.str "complete_task")]).events = [] ∧
    (listenStepJson "ok"
      [("kind", PyValue.str "frobnicate"), ("type", PyValue.str "complete_task")]).invoked
      = some "complete_task_handler" :=
  ⟨rfl, rfl⟩

/-- C9 (amended): for every inbound JSON message that is not routed to the
complete-task legacy path (its `type` key is not "complete_task") and whose
`kind` names no handler method, `listen` sends exactly one
`{"type": "error", "error": "Invalid message type: <kind>"}` event, invokes
no handler, touches no nudge state, and keeps the connection open. -/
theorem C9_unknown_kind_single_error (agentReply : String) (d : PyDict) (kv : PyValue)
    (htype : pyDictGet d "type" ≠ some (.str "complete_task"))
    (hkind : pyDictGet d "kind" = some kv)
    (hnh : flowstateHandlerNames.contains (pyStr kv ++ "_handler") = false) :
    listenStepJson agentReply d
      = ⟨[.errorEv ("Invalid message type: " ++ pyStr kv)], none, none, false, false, true⟩ := by
  have hnm : pyStr kv ++ "_handler" ∉ flowstateHandlerNames := by simpa using hnh
  simp [listenStepJson, htype, hkind, hnm]

/-- C9 witness: the amended statement at the concrete message
`{"kind": "frobnicate"}`. -/
theorem C9_witness :
    listenStepJson "ok" [("kind", PyValue.str "frobnicate")]
      = ⟨[.errorEv "Invalid message type: frobnicate"], none, none, false, false, true⟩ :=
  C9_unknown_kind_single_error "ok" [("kind", PyValue.str "frobnicate")]
    (.str "frobnicate") (by decide) rfl rfl

/-- C10 witness: the round-trip at a concrete user id, timestamp, key and a
concrete length-64 digest function. -/
theorem C10_witness :
    verify_access_token (fun _ _ => List.replicate 64 48)
      (generate_access_token (fun _ _ => List.replicate 64 48) 3 [50, 48, 50, 53] [107])
      [107] = some 3 :=
  C10_access_token_roundtrip (fun _ _ => List.replicate 64 48) 3 [50, 48, 50, 53] [107]
    (by decide) (by decide) (by decide)
    (fun x hx => by
      have h48 := List.eq_of_mem_replicate hx
      omega)
